import Mathlib

/-!
Shallow embedding of `src/main.py` (FastAPI backend over a Supabase store).

The external relational store is modelled as an explicit `DBState` of lists
of rows.  Store semantics follow the spec's collaborator contract:
select/insert/update/delete with equality filters return the affected rows
or an empty result.  Inserts that can fail (the settings insert inside
`create_project`, the users insert inside the webhook handler) are
parameterised by an explicit outcome, because the Python code branches both
on an empty insert result and on a raised store error, and a raised error
takes the handler into its `except` clauses.

Each endpoint handler becomes a function from its arguments and a `DBState`
to a result (`Except HTTPError ...`) and the resulting `DBState`; a Python
`raise HTTPException(...)` that escapes the handler (or is re-raised by an
`except HTTPException: raise` clause) becomes `Except.error`, and any store
mutations issued before the raise persist in the returned state (there is no
transaction around a handler).
-/

/-- A row of the `projects` table. -/
structure ProjectRow where
  id : Nat
  name : String
  description : String
  clerk_id : String
deriving Repr, DecidableEq

/-- A row of the `project_settings` table. -/
structure SettingsRow where
  project_id : Nat
  embedding_model : String
  rag_strategy : String
  agent_type : String
  chunks_per_search : Int
  final_context_size : Int
  similarity_threshold : ℚ
  number_of_queries : Int
  reranking_enabled : Bool
  reranking_model : String
  vector_weight : ℚ
  keyword_weight : ℚ
deriving Repr, DecidableEq

/-- A row of the `chats` table. -/
structure ChatRow where
  id : Nat
  title : String
  project_id : Nat
  clerk_id : String
  created_at : Nat
deriving Repr, DecidableEq

/-- A row of the `project_documents` table. -/
structure DocRow where
  id : Nat
  project_id : Nat
  clerk_id : String
  created_at : Nat
deriving Repr, DecidableEq

/-- The external store.  `users` holds the `clerk_id` column of the `users`
table (the only column the code touches); `nextId` is the next
store-generated row id for inserts into `projects`. -/
structure DBState where
  users : List String
  projects : List ProjectRow
  project_settings : List SettingsRow
  chats : List ChatRow
  project_documents : List DocRow
  nextId : Nat
deriving Repr, DecidableEq

/-- An HTTP error response, as produced by `raise HTTPException(status_code, detail)`. -/
structure HTTPError where
  status : Nat
  detail : String
deriving Repr, DecidableEq

/-- Outcome of a fallible store insert: the store returns the inserted rows,
returns an empty result, or raises an error whose text is `msg`. -/
inductive StoreOutcome where
  | ok
  | emptyResult
  | raiseErr (msg : String)
deriving Repr, DecidableEq

/-! ### JSON values, for the webhook payload and request bodies -/

/-- The fragment of Python/JSON values the handlers inspect. -/
inductive JValue where
  | null
  | str (s : String)
  | boolv (b : Bool)
  | obj (fields : List (String × JValue))

/-- Python `dict.get`: the value under `key`, or `none` when absent. -/
def jget (fields : List (String × JValue)) (key : String) : Option JValue :=
  (fields.find? (fun kv => kv.1 == key)).map (fun kv => kv.2)

mutual

/-- Python `repr` of a value, as used when a dict is interpolated. -/
def pyReprJ : JValue → String
  | .null => "None"
  | .str s => "'" ++ s ++ "'"
  | .boolv b => cond b "True" "False"
  | .obj fs => "\x7b" ++ pyReprFields fs ++ "\x7d"

/-- Python `repr` of a dict body, comma-separated `'key': value` pairs. -/
def pyReprFields : List (String × JValue) → String
  | [] => ""
  | [kv] => "'" ++ kv.1 ++ "': " ++ pyReprJ kv.2
  | kv :: rest => "'" ++ kv.1 ++ "': " ++ pyReprJ kv.2 ++ ", " ++ pyReprFields rest

end

/-- Python `str` of an optional value, as an f-string interpolates
`dict.get`'s result: `None` when the key was absent. -/
def pyStrOpt : Option JValue → String
  | none => "None"
  | some .null => "None"
  | some (.str s) => s
  | some (.boolv b) => cond b "True" "False"
  | some (.obj fs) => pyReprJ (.obj fs)

/-! ### Webhook handler: `POST /api/users/webhook` -/

/-- The success responses of `create_user_from_clerk_webhook`. -/
inductive WebhookResp where
  | ignored (message : String)
  | alreadyExists (clerk_id : String)
  | created (clerk_id : String)
deriving Repr, DecidableEq

/-- The message of the store's duplicate-key error: Supabase enforces a
uniqueness constraint on `users.clerk_id` (spec section 5), so the losing
insert of a check-then-insert race raises with this text. -/
def duplicateKeyMsg : String :=
  "duplicate key value violates unique constraint \"users_clerk_id_key\""

/-- `create_user_from_clerk_webhook` (src/main.py lines 53-140).

`payload` is the parsed JSON body (FastAPI guarantees a dict, so the
`isinstance(clerk_webhook_data, dict)` check at line 68 passes).  `race`
injects the spec's explicit race: when true, a concurrent invocation
inserts the same `clerk_id` between this handler's select (line 100) and
its insert (line 116), so the insert hits the uniqueness constraint and
raises; the raised store error is not an `HTTPException`, so it falls to
the blanket `except Exception` at line 135 and becomes a 500. -/
def create_user_from_clerk_webhook (payload : List (String × JValue)) (race : Bool)
    (s : DBState) : Except HTTPError WebhookResp × DBState :=
  match jget payload "type" with
  | some (.str "user.created") =>
    match jget payload "data" with
    | some (.obj userData) =>
      if userData.isEmpty then
        (.error ⟨400, "Missing or invalid user data in webhook payload"⟩, s)
      else
        match jget userData "id" with
        | some (.str cid) =>
          if cid.isEmpty then
            (.error ⟨400, "Missing or invalid clerk_id in user data"⟩, s)
          else
            if s.users.contains cid then
              (.ok (.alreadyExists cid), s)
            else
              let s' := if race then { s with users := s.users ++ [cid] } else s
              if s'.users.contains cid then
                (.error ⟨500, "An internal server error occurred while processing webhook: "
                    ++ duplicateKeyMsg⟩, s')
              else
                (.ok (.created cid), { s' with users := s'.users ++ [cid] })
        | _ => (.error ⟨400, "Missing or invalid clerk_id in user data"⟩, s)
    | _ => (.error ⟨400, "Missing or invalid user data in webhook payload"⟩, s)
  | t => (.ok (.ignored ("Event type '" ++ pyStrOpt t ++ "' ignored")), s)

/-! ### Project endpoints -/

/-- The pydantic `ProjectCreate` model (src/main.py lines 198-200). -/
structure ProjectCreate where
  name : String
  description : String
deriving Repr, DecidableEq

/-- FastAPI/pydantic validation of a `POST /api/projects` body against
`ProjectCreate`: `name` is a required string, `description` defaults to
`""`; a violation is rejected with a 422 validation error before the
handler body runs. -/
def parseProjectCreate (body : List (String × JValue)) : Except HTTPError ProjectCreate :=
  match jget body "name" with
  | some (.str n) =>
    match jget body "description" with
    | some (.str d) => .ok ⟨n, d⟩
    | none => .ok ⟨n, ""⟩
    | some _ => .error ⟨422, "Input should be a valid string"⟩
  | some _ => .error ⟨422, "Input should be a valid string"⟩
  | none => .error ⟨422, "Field required"⟩

/-- The default settings row inserted by `create_project`
(src/main.py lines 245-258). -/
def defaultSettings (project_id : Nat) : SettingsRow where
  project_id := project_id
  embedding_model := "text-embedding-3-large"
  rag_strategy := "basic"
  agent_type := "agentic"
  chunks_per_search := 10
  final_context_size := 5
  similarity_threshold := 0.3
  number_of_queries := 5
  reranking_enabled := true
  reranking_model := "rerank-english-v3.0"
  vector_weight := 0.7
  keyword_weight := 0.3

/-- The success body of `create_project`. -/
structure CreateProjectResp where
  message : String
  data : ProjectRow
deriving Repr, DecidableEq

/-- `create_project` (src/main.py lines 215-280).

`projectInsert` and `settingsInsert` are the outcomes of the two store
inserts.  On `projectInsert = ok` the store assigns id `s.nextId` and
returns the row, so the `if not project_result.data` guard (line 235) is
not hit; `emptyResult` hits that guard (422); a raised store error falls
past `except HTTPException` to `except Exception` (500).  On
`settingsInsert = emptyResult` the compensating delete at line 262 runs,
filtered by `id` only — there is no `.eq("clerk_id", ...)` on it — then a
422 is raised.  On `settingsInsert = raiseErr` control jumps straight to
the `except` clauses: the compensating delete does NOT run, the project
row persists, and a 500 is raised. -/
def create_project (name description clerk_id : String)
    (projectInsert settingsInsert : StoreOutcome) (s : DBState) :
    Except HTTPError CreateProjectResp × DBState :=
  match projectInsert with
  | .emptyResult =>
    (.error ⟨422, "Failed to create project - invalid data provided"⟩, s)
  | .raiseErr msg =>
    (.error ⟨500, "An internal server error occurred while creating project: " ++ msg⟩, s)
  | .ok =>
    let created : ProjectRow := ⟨s.nextId, name, description, clerk_id⟩
    let s1 : DBState := { s with projects := s.projects ++ [created], nextId := s.nextId + 1 }
    let project_id := created.id
    match settingsInsert with
    | .ok =>
      let s2 := { s1 with
        project_settings := s1.project_settings ++ [defaultSettings project_id] }
      (.ok ⟨"Project created successfully", created⟩, s2)
    | .emptyResult =>
      let s2 := { s1 with
        projects := s1.projects.filter (fun p => !(p.id == project_id)) }
      (.error ⟨422, "Failed to create project settings - project creation rolled back"⟩, s2)
    | .raiseErr msg =>
      (.error ⟨500, "An internal server error occurred while creating project: " ++ msg⟩, s1)

/-- `delete_project` (src/main.py lines 283-326): select filtered by id and
clerk_id; 404 when empty; otherwise delete with the same filter, the store
cascading the deletion of the project's settings, documents and chats. -/
def delete_project (project_id : Nat) (clerk_id : String) (s : DBState) :
    Except HTTPError ProjectRow × DBState :=
  let project_result := s.projects.filter (fun p => p.id == project_id && p.clerk_id == clerk_id)
  match project_result with
  | [] =>
    (.error ⟨404, "Project not found or you don't have permission to delete it"⟩, s)
  | _ :: _ =>
    let deleted := s.projects.filter (fun p => p.id == project_id && p.clerk_id == clerk_id)
    let s' : DBState := { s with
      projects := s.projects.filter (fun p => !(p.id == project_id && p.clerk_id == clerk_id)),
      project_settings :=
        s.project_settings.filter (fun r => !(deleted.any (fun p => p.id == r.project_id))),
      chats := s.chats.filter (fun c => !(deleted.any (fun p => p.id == c.project_id))),
      project_documents :=
        s.project_documents.filter (fun d => !(deleted.any (fun p => p.id == d.project_id))) }
    match deleted with
    | [] => (.error ⟨404, "Failed to delete project - project not found"⟩, s)
    | d :: _ => (.ok d, s')

/-- `get_project` (src/main.py lines 329-358): select filtered by id and
clerk_id; 404 when empty, first row otherwise.  Read-only. -/
def get_project (project_id : Nat) (clerk_id : String) (s : DBState) :
    Except HTTPError ProjectRow :=
  match s.projects.filter (fun p => p.id == project_id && p.clerk_id == clerk_id) with
  | [] => .error ⟨404, "Project not found or you don't have permission to access it"⟩
  | r :: _ => .ok r

/-- Descending insertion by `created_at` (stable), for `.order("created_at", desc=True)`. -/
def insertByCreatedDesc (c : ChatRow) : List ChatRow → List ChatRow
  | [] => [c]
  | x :: xs => if c.created_at ≤ x.created_at then x :: insertByCreatedDesc c xs
               else c :: x :: xs

/-- `get_project_chats` (src/main.py lines 361-382): chats filtered by
project_id and clerk_id, ordered by creation time descending. -/
def get_project_chats (project_id : Nat) (clerk_id : String) (s : DBState) : List ChatRow :=
  (s.chats.filter (fun c => c.project_id == project_id && c.clerk_id == clerk_id)).foldr
    insertByCreatedDesc []

/-- `get_project_settings` (src/main.py lines 384-413; FastAPI routes the
path to this first registration, not the dead duplicate at lines 477-496):
select on `project_settings` filtered by `project_id` ONLY — the code never
applies a `clerk_id` filter and never checks project ownership — 404 when
empty, first row otherwise.  Read-only; the handler has
`except HTTPException: raise`, so the 404 is surfaced as-is. -/
def get_project_settings (project_id : Nat) (clerk_id : String) (s : DBState) :
    Except HTTPError SettingsRow :=
  match s.project_settings.filter (fun r => r.project_id == project_id) with
  | [] => .error ⟨404, "Project settings not found"⟩
  | r :: _ => .ok r

/-- Descending insertion by `created_at` for document rows. -/
def insertDocByCreatedDesc (d : DocRow) : List DocRow → List DocRow
  | [] => [d]
  | x :: xs => if d.created_at ≤ x.created_at then x :: insertDocByCreatedDesc d xs
               else d :: x :: xs

/-- `get_project_files` (src/main.py lines 415-430): documents filtered by
project_id and clerk_id, ordered by creation time descending. -/
def get_project_files (project_id : Nat) (clerk_id : String) (s : DBState) : List DocRow :=
  (s.project_documents.filter (fun d => d.project_id == project_id && d.clerk_id == clerk_id)).foldr
    insertDocByCreatedDesc []

/-! ### Settings update and chat endpoints -/

/-- The pydantic `ProjectSettings` model (src/main.py lines 202-213): the
eleven fields of a full-replacement settings payload. -/
structure ProjectSettings where
  embedding_model : String
  rag_strategy : String
  agent_type : String
  chunks_per_search : Int
  final_context_size : Int
  similarity_threshold : ℚ
  number_of_queries : Int
  reranking_enabled : Bool
  reranking_model : String
  vector_weight : ℚ
  keyword_weight : ℚ
deriving Repr, DecidableEq

/-- `.update(settings.model_dump())` applied to one row: every payload field
overwrites the row's column; `project_id` is not in the payload and is kept. -/
def applySettings (ps : ProjectSettings) (r : SettingsRow) : SettingsRow :=
  { r with
    embedding_model := ps.embedding_model
    rag_strategy := ps.rag_strategy
    agent_type := ps.agent_type
    chunks_per_search := ps.chunks_per_search
    final_context_size := ps.final_context_size
    similarity_threshold := ps.similarity_threshold
    number_of_queries := ps.number_of_queries
    reranking_enabled := ps.reranking_enabled
    reranking_model := ps.reranking_model
    vector_weight := ps.vector_weight
    keyword_weight := ps.keyword_weight }

/-- `update_project_settings` (src/main.py lines 499-524).

The handler's only `except` clause is `except Exception` — unlike
`create_project`, `delete_project` and `get_project` it has no
`except HTTPException: raise` — so the two `HTTPException(404, ...)`
raises inside the `try` are caught there and re-raised as 500 with detail
`"Failed to update project settings: " + str(e)`, where Starlette's
`str(HTTPException)` renders as `"404: <detail>"`.  The update itself
(line 513) runs before the empty-result check, so a no-op update leaves
the state unchanged and the error path carries the unchanged state. -/
def update_project_settings (project_id : Nat) (settings : ProjectSettings)
    (clerk_id : String) (s : DBState) : Except HTTPError SettingsRow × DBState :=
  let project_result := s.projects.filter (fun p => p.id == project_id && p.clerk_id == clerk_id)
  match project_result with
  | [] =>
    (.error ⟨500, "Failed to update project settings: 404: Project not found or access denied"⟩, s)
  | _ :: _ =>
    let updatedRows :=
      (s.project_settings.filter (fun r => r.project_id == project_id)).map
        (applySettings settings)
    let s' : DBState := { s with
      project_settings := s.project_settings.map
        (fun r => if r.project_id == project_id then applySettings settings r else r) }
    match updatedRows with
    | [] =>
      (.error ⟨500, "Failed to update project settings: 404: Project settings not found"⟩, s')
    | r :: _ => (.ok r, s')

/-- `delete_chat` (src/main.py lines 458-475).

The delete is filtered by chat id and clerk_id.  Like
`update_project_settings`, the handler has only a blanket
`except Exception`, so the deliberate `HTTPException(404, "Chat not found
or access denied")` is caught and re-raised as a 500 whose detail is the
literal string `"Failed to delete chat: chat_id"` (the source forgot the
f-string braces, so `chat_id` is not interpolated). -/
def delete_chat (chat_id : Nat) (clerk_id : String) (s : DBState) :
    Except HTTPError ChatRow × DBState :=
  let deleted := s.chats.filter (fun c => c.id == chat_id && c.clerk_id == clerk_id)
  let s' : DBState := { s with
    chats := s.chats.filter (fun c => !(c.id == chat_id && c.clerk_id == clerk_id)) }
  match deleted with
  | [] => (.error ⟨500, "Failed to delete chat: chat_id"⟩, s')
  | c :: _ => (.ok c, s')

/-! ### Shared concrete states and payloads for witnesses and counterexamples -/

/-- The empty store. -/
def emptySt : DBState := ⟨[], [], [], [], [], 0⟩

/-- A store with tenants `A` and `B`, where `A` owns project 1 and its
default settings row. -/
def stA : DBState := ⟨["A", "B"], [⟨1, "p", "", "A"⟩], [defaultSettings 1], [], [], 2⟩

/-- A store where `A` owns project 2 but no settings row exists for it
(the inconsistent state of src/main.py line 515). -/
def stB : DBState := ⟨["A"], [⟨2, "q", "", "A"⟩], [], [], [], 3⟩

/-- An arbitrary full settings payload. -/
def stgEx : ProjectSettings :=
  ⟨"text-embedding-3-small", "advanced", "simple", 8, 4, 0.5, 3, false, "rerank-v2", 0.6, 0.4⟩

/-! ### Helper lemmas about tenant-filtered selects -/

/-- A select filtered by id and by a tenant other than the owner matches
no project row. -/
theorem proj_filter_nil (l : List ProjectRow) (pid : Nat) (A B : String)
    (hAB : A ≠ B) (hown : ∀ p ∈ l, p.id = pid → p.clerk_id = A) :
    l.filter (fun p => p.id == pid && p.clerk_id == B) = [] := by
  refine List.filter_eq_nil_iff.mpr ?_
  intro p hp
  simp only [Bool.and_eq_true, beq_iff_eq, not_and]
  intro hid hcl
  exact hAB ((hown p hp hid).symm.trans hcl)

/-- A select for an id no project row has matches nothing, whatever the
tenant filter. -/
theorem proj_filter_nil_of_no_id (l : List ProjectRow) (qid : Nat) (B : String)
    (hq : ∀ p ∈ l, p.id ≠ qid) :
    l.filter (fun p => p.id == qid && p.clerk_id == B) = [] := by
  refine List.filter_eq_nil_iff.mpr ?_
  intro p hp
  simp only [Bool.and_eq_true, beq_iff_eq, not_and]
  intro hid
  exact absurd hid (hq p hp)

/-- A select on chats filtered by project id and by a tenant other than the
owner of that project's chats matches nothing. -/
theorem chat_proj_filter_nil (l : List ChatRow) (pid : Nat) (A B : String)
    (hAB : A ≠ B) (hown : ∀ c ∈ l, c.project_id = pid → c.clerk_id = A) :
    l.filter (fun c => c.project_id == pid && c.clerk_id == B) = [] := by
  refine List.filter_eq_nil_iff.mpr ?_
  intro c hc
  simp only [Bool.and_eq_true, beq_iff_eq, not_and]
  intro hid hcl
  exact hAB ((hown c hc hid).symm.trans hcl)

/-- A select on documents filtered by project id and by a tenant other than
the owner matches nothing. -/
theorem doc_proj_filter_nil (l : List DocRow) (pid : Nat) (A B : String)
    (hAB : A ≠ B) (hown : ∀ d ∈ l, d.project_id = pid → d.clerk_id = A) :
    l.filter (fun d => d.project_id == pid && d.clerk_id == B) = [] := by
  refine List.filter_eq_nil_iff.mpr ?_
  intro d hd
  simp only [Bool.and_eq_true, beq_iff_eq, not_and]
  intro hid hcl
  exact hAB ((hown d hd hid).symm.trans hcl)

/-- A delete on chats filtered by chat id and by a tenant other than the
chat's owner matches nothing. -/
theorem chat_id_filter_nil (l : List ChatRow) (chid : Nat) (A B : String)
    (hAB : A ≠ B) (hown : ∀ c ∈ l, c.id = chid → c.clerk_id = A) :
    l.filter (fun c => c.id == chid && c.clerk_id == B) = [] := by
  refine List.filter_eq_nil_iff.mpr ?_
  intro c hc
  simp only [Bool.and_eq_true, beq_iff_eq, not_and]
  intro hid hcl
  exact hAB ((hown c hc hid).symm.trans hcl)

/-- Claim C5: for tenants A ≠ B and a project id r owned by A, `get_project r`
and `delete_project r` invoked as B return the very same 404 result — status
and body — as for an id that exists for no tenant at all, and `delete_project`
leaves the store untouched in both cases, so the existence of another
tenant's resource is never observable. -/
theorem C5_cross_tenant_indistinguishable (s : DBState) (pid qid : Nat) (A B : String)
    (hAB : A ≠ B)
    (hex : ∃ p ∈ s.projects, p.id = pid ∧ p.clerk_id = A)
    (hown : ∀ p ∈ s.projects, p.id = pid → p.clerk_id = A)
    (hq : ∀ p ∈ s.projects, p.id ≠ qid) :
    get_project pid B s
      = .error ⟨404, "Project not found or you don't have permission to access it"⟩
    ∧ get_project qid B s
      = .error ⟨404, "Project not found or you don't have permission to access it"⟩
    ∧ delete_project pid B s
      = (.error ⟨404, "Project not found or you don't have permission to delete it"⟩, s)
    ∧ delete_project qid B s
      = (.error ⟨404, "Project not found or you don't have permission to delete it"⟩, s) := by
  have h1 := proj_filter_nil s.projects pid A B hAB hown
  have h2 := proj_filter_nil_of_no_id s.projects qid B hq
  refine ⟨?_, ?_, ?_, ?_⟩
  · unfold get_project; rw [h1]
  · unfold get_project; rw [h2]
  · unfold delete_project; rw [h1]
  · unfold delete_project; rw [h2]

/-- Witness for C5 at a concrete store: tenant A owns project 1, id 9 does
not exist, and B observes identical 404s for both. -/
theorem C5_cross_tenant_indistinguishable_witness :
    (("A" : String) ≠ "B")
    ∧ (∃ p ∈ stA.projects, p.id = 1 ∧ p.clerk_id = "A")
    ∧ (get_project 1 "B" stA
        = .error ⟨404, "Project not found or you don't have permission to access it"⟩
      ∧ get_project 9 "B" stA
        = .error ⟨404, "Project not found or you don't have permission to access it"⟩
      ∧ delete_project 1 "B" stA
        = (.error ⟨404, "Project not found or you don't have permission to delete it"⟩, stA)
      ∧ delete_project 9 "B" stA
        = (.error ⟨404, "Project not found or you don't have permission to delete it"⟩, stA)) :=
  ⟨by decide, ⟨⟨1, "p", "", "A"⟩, by decide⟩,
    C5_cross_tenant_indistinguishable stA 1 9 "A" "B" (by decide)
      ⟨⟨1, "p", "", "A"⟩, by decide⟩ (by decide) (by decide)⟩

/-- A store where tenant A owns project 1, its settings, a chat 5 on it and
a document 6 on it, and tenant B exists. -/
def stC1 : DBState :=
  ⟨["A", "B"], [⟨1, "p", "", "A"⟩], [defaultSettings 1],
   [⟨5, "c", 1, "A", 10⟩], [⟨6, 1, "A", 11⟩], 2⟩

/-- Counterexample to claim C1: tenants A and B differ, project 1 is owned by
A, yet fetching project 1's settings while authenticated as B returns A's
settings row instead of signalling NotFoundOrForbidden — `get_project_settings`
filters by project id only. -/
theorem C1_counterexample :
    (("A" : String) ≠ "B")
    ∧ stA.projects = [⟨1, "p", "", "A"⟩]
    ∧ get_project_settings 1 "B" stA = .ok (defaultSettings 1) :=
  ⟨by decide, rfl, rfl⟩

/-- Claim C1 as amended: `get_project`, `delete_project`, the chat and file
lists, `delete_chat` and `update_project_settings` all filter by the
resolved tenant id, so a caller other than the owner never reads or mutates
the resource — `get_project` and `delete_project` signal the unified
NotFoundOrForbidden 404, the list reads return empty results, and
`delete_chat` and `update_project_settings` reject the mismatch with the
store unchanged, their deliberate 404 surfacing as the wrapped 500 of
their missing `except HTTPException: raise`.  But `get_project_settings` filters by
project id only — its result is independent of the caller, so B receives
A's settings — and the compensating delete inside `create_project` filters
by project id only, not by tenant id. -/
theorem C1_amended (s : DBState) (pid chid : Nat) (A B : String)
    (stg : ProjectSettings) (nm ds t : String)
    (hAB : A ≠ B)
    (hownP : ∀ p ∈ s.projects, p.id = pid → p.clerk_id = A)
    (hownC : ∀ c ∈ s.chats, c.project_id = pid → c.clerk_id = A)
    (hownD : ∀ d ∈ s.project_documents, d.project_id = pid → d.clerk_id = A)
    (hownCh : ∀ c ∈ s.chats, c.id = chid → c.clerk_id = A) :
    get_project pid B s
      = .error ⟨404, "Project not found or you don't have permission to access it"⟩
    ∧ delete_project pid B s
      = (.error ⟨404, "Project not found or you don't have permission to delete it"⟩, s)
    ∧ get_project_chats pid B s = []
    ∧ get_project_files pid B s = []
    ∧ delete_chat chid B s = (.error ⟨500, "Failed to delete chat: chat_id"⟩, s)
    ∧ update_project_settings pid stg B s
      = (.error ⟨500, "Failed to update project settings: 404: Project not found or access denied"⟩, s)
    ∧ get_project_settings pid B s = get_project_settings pid A s
    ∧ ((create_project nm ds t .ok .emptyResult s).2).projects
      = s.projects.filter (fun p => !(p.id == s.nextId)) := by
  have hp := proj_filter_nil s.projects pid A B hAB hownP
  have hc := chat_proj_filter_nil s.chats pid A B hAB hownC
  have hd := doc_proj_filter_nil s.project_documents pid A B hAB hownD
  have hch := chat_id_filter_nil s.chats chid A B hAB hownCh
  refine ⟨?_, ?_, ?_, ?_, ?_, ?_, rfl, ?_⟩
  · unfold get_project; rw [hp]
  · unfold delete_project; rw [hp]
  · unfold get_project_chats; rw [hc]; rfl
  · unfold get_project_files; rw [hd]; rfl
  · have hkeep : s.chats.filter (fun c => !(c.id == chid && c.clerk_id == B)) = s.chats := by
      refine List.filter_eq_self.mpr ?_
      intro c hcmem
      simp only [Bool.not_eq_eq_eq_not, Bool.not_true, Bool.and_eq_false_iff]
      by_cases hid : c.id = chid
      · right
        simp only [beq_eq_false_iff_ne, ne_eq]
        intro hcl
        exact hAB ((hownCh c hcmem hid).symm.trans hcl)
      · left
        simp [hid]
    unfold delete_chat
    rw [hch, hkeep]
  · unfold update_project_settings; rw [hp]
  · unfold create_project
    simp only [List.filter_append]
    simp

/-- Witness for C1 as amended, at a concrete store where A owns project 1
and a chat with id 5. -/
theorem C1_amended_witness :
    (("A" : String) ≠ "B")
    ∧ (get_project 1 "B" stC1
        = .error ⟨404, "Project not found or you don't have permission to access it"⟩
      ∧ delete_project 1 "B" stC1
        = (.error ⟨404, "Project not found or you don't have permission to delete it"⟩, stC1)
      ∧ get_project_chats 1 "B" stC1 = []
      ∧ get_project_files 1 "B" stC1 = []
      ∧ delete_chat 5 "B" stC1 = (.error ⟨500, "Failed to delete chat: chat_id"⟩, stC1)
      ∧ update_project_settings 1 stgEx "B" stC1
        = (.error ⟨500, "Failed to update project settings: 404: Project not found or access denied"⟩, stC1)
      ∧ get_project_settings 1 "B" stC1 = get_project_settings 1 "A" stC1
      ∧ ((create_project "n" "" "A" .ok .emptyResult stC1).2).projects
        = stC1.projects.filter (fun p => !(p.id == stC1.nextId))) :=
  ⟨by decide,
    C1_amended stC1 1 5 "A" "B" stgEx "n" "" "A" (by decide) (by decide) (by decide)
      (by decide) (by decide)⟩

/-- Counterexample to claim C2: when the ProjectSettings insertion raises a
store error, `create_project` signals a 500 — not the 422-class
dependent-creation error — and the Project row persists: a subsequent
`get_project` for the new id succeeds instead of returning
NotFoundOrForbidden. -/
theorem C2_counterexample :
    (create_project "Demo" "" "A" .ok (.raiseErr "connection reset") emptySt).1
      = .error ⟨500, "An internal server error occurred while creating project: connection reset"⟩
    ∧ get_project 0 "A" (create_project "Demo" "" "A" .ok (.raiseErr "connection reset") emptySt).2
      = .ok ⟨0, "Demo", "", "A"⟩ :=
  ⟨rfl, rfl⟩

/-- Claim C2 as amended: only the empty-insert-result failure is
compensated — the project row is deleted and a 422 dependent-creation
error is signalled, after which `get_project` for the new id returns
NotFoundOrForbidden for any caller; when the settings insertion instead
raises a store error, no compensation runs: the call signals a 500-class
error and the project row persists. -/
theorem C2_amended (s : DBState) (nm ds cid t m : String)
    (hfresh : ∀ p ∈ s.projects, p.id ≠ s.nextId) :
    (create_project nm ds cid .ok .emptyResult s).1
      = .error ⟨422, "Failed to create project settings - project creation rolled back"⟩
    ∧ get_project s.nextId t (create_project nm ds cid .ok .emptyResult s).2
      = .error ⟨404, "Project not found or you don't have permission to access it"⟩
    ∧ create_project nm ds cid .ok (.raiseErr m) s
      = (.error ⟨500, "An internal server error occurred while creating project: " ++ m⟩,
         { s with projects := s.projects ++ [⟨s.nextId, nm, ds, cid⟩], nextId := s.nextId + 1 })
    ∧ get_project s.nextId cid
        (create_project nm ds cid .ok (.raiseErr m) s).2
      = .ok ⟨s.nextId, nm, ds, cid⟩ := by
  refine ⟨rfl, ?_, rfl, ?_⟩
  · unfold get_project create_project
    have hnil : ((s.projects ++ [(⟨s.nextId, nm, ds, cid⟩ : ProjectRow)]).filter
          (fun p => !(p.id == s.nextId))).filter
        (fun p => p.id == s.nextId && p.clerk_id == t) = [] := by
      refine List.filter_eq_nil_iff.mpr ?_
      intro p hp
      have hne := (List.mem_filter.mp hp).2
      simp only [Bool.not_eq_eq_eq_not, Bool.not_true, beq_eq_false_iff_ne, ne_eq] at hne
      simp [hne]
    simp only []
    rw [hnil]
  · unfold get_project create_project
    have hfil : (s.projects ++ [(⟨s.nextId, nm, ds, cid⟩ : ProjectRow)]).filter
        (fun p => p.id == s.nextId && p.clerk_id == cid) = [⟨s.nextId, nm, ds, cid⟩] := by
      rw [List.filter_append]
      have h1 : s.projects.filter (fun p => p.id == s.nextId && p.clerk_id == cid) = [] := by
        refine List.filter_eq_nil_iff.mpr ?_
        intro p hp
        simp only [Bool.and_eq_true, beq_iff_eq, not_and]
        intro hid
        exact absurd hid (hfresh p hp)
      rw [h1]
      simp
    simp only []
    rw [hfil]

/-- Witness for C2 as amended, at the empty store. -/
theorem C2_amended_witness :
    (∀ p ∈ emptySt.projects, p.id ≠ emptySt.nextId)
    ∧ ((create_project "Demo" "" "A" .ok .emptyResult emptySt).1
        = .error ⟨422, "Failed to create project settings - project creation rolled back"⟩
      ∧ get_project emptySt.nextId "B" (create_project "Demo" "" "A" .ok .emptyResult emptySt).2
        = .error ⟨404, "Project not found or you don't have permission to access it"⟩
      ∧ create_project "Demo" "" "A" .ok (.raiseErr "boom") emptySt
        = (.error ⟨500, "An internal server error occurred while creating project: " ++ "boom"⟩,
           { emptySt with projects := emptySt.projects ++ [⟨emptySt.nextId, "Demo", "", "A"⟩],
                          nextId := emptySt.nextId + 1 })
      ∧ get_project emptySt.nextId "A"
          (create_project "Demo" "" "A" .ok (.raiseErr "boom") emptySt).2
        = .ok ⟨emptySt.nextId, "Demo", "", "A"⟩) :=
  ⟨by decide, C2_amended emptySt "Demo" "" "A" "B" "boom" (by decide)⟩

/-- Counterexample to claim C3: a valid `user.created` event whose Tenant
insert loses the check-then-insert race and fails with the store's
duplicate-key conflict is answered with a 500 internal error — the blanket
`except Exception` wraps the conflict — not with the "already exists"
success outcome. -/
theorem C3_counterexample :
    create_user_from_clerk_webhook
        [("type", .str "user.created"), ("data", .obj [("id", .str "u1")])] true emptySt
      = (.error ⟨500, "An internal server error occurred while processing webhook: "
            ++ duplicateKeyMsg⟩, { emptySt with users := ["u1"] }) :=
  rfl

/-- Claim C3 as amended: when the Tenant insert fails with the store's
duplicate-key conflict (the losing side of the check-then-insert race), the
handler does not catch that condition specially — its blanket
`except Exception` converts it into a 500 internal-error response, not the
"already exists" success outcome. -/
theorem C3_amended (s : DBState) (payload ud : List (String × JValue)) (cid : String)
    (h1 : jget payload "type" = some (.str "user.created"))
    (h2 : jget payload "data" = some (.obj ud))
    (h3 : ud.isEmpty = false)
    (h4 : jget ud "id" = some (.str cid))
    (h5 : cid.isEmpty = false)
    (h6 : s.users.contains cid = false) :
    create_user_from_clerk_webhook payload true s
      = (.error ⟨500, "An internal server error occurred while processing webhook: "
            ++ duplicateKeyMsg⟩, { s with users := s.users ++ [cid] }) := by
  have hmem : (s.users ++ [cid]).contains cid = true := by simp
  simp only [create_user_from_clerk_webhook, h1, h2, h3, h4, h5, h6, hmem,
    Bool.false_eq_true, if_false, if_true]

/-- Witness for C3 as amended, at the empty store with clerk id u2. -/
theorem C3_amended_witness :
    jget [("type", JValue.str "user.created"), ("data", JValue.obj [("id", JValue.str "u2")])]
        "type" = some (.str "user.created")
    ∧ (emptySt.users.contains "u2" = false)
    ∧ create_user_from_clerk_webhook
        [("type", .str "user.created"), ("data", .obj [("id", .str "u2")])] true emptySt
      = (.error ⟨500, "An internal server error occurred while processing webhook: "
            ++ duplicateKeyMsg⟩, { emptySt with users := emptySt.users ++ ["u2"] }) :=
  ⟨rfl, rfl,
    C3_amended emptySt
      [("type", .str "user.created"), ("data", .obj [("id", .str "u2")])]
      [("id", .str "u2")] "u2" rfl rfl rfl rfl rfl rfl⟩

/-- Claim C6: two sequential invocations of the webhook handler with an
identical valid `user.created` payload create exactly one Tenant row — the
first call inserts and reports the user created, the second performs no
write and reports "already exists". -/
theorem C6_webhook_idempotent (s : DBState) (payload ud : List (String × JValue)) (cid : String)
    (h1 : jget payload "type" = some (.str "user.created"))
    (h2 : jget payload "data" = some (.obj ud))
    (h3 : ud.isEmpty = false)
    (h4 : jget ud "id" = some (.str cid))
    (h5 : cid.isEmpty = false)
    (h6 : s.users.contains cid = false) :
    create_user_from_clerk_webhook payload false s
      = (.ok (.created cid), { s with users := s.users ++ [cid] })
    ∧ create_user_from_clerk_webhook payload false { s with users := s.users ++ [cid] }
      = (.ok (.alreadyExists cid), { s with users := s.users ++ [cid] })
    ∧ ({ s with users := s.users ++ [cid] }).users.count cid = 1 := by
  refine ⟨?_, ?_, ?_⟩
  · simp only [create_user_from_clerk_webhook, h1, h2, h3, h4, h5, h6,
      Bool.false_eq_true, if_false, if_true]
  · have hmem : ({ s with users := s.users ++ [cid] } : DBState).users.contains cid = true := by
      simp
    simp only [create_user_from_clerk_webhook, h1, h2, h3, h4, h5, hmem,
      Bool.false_eq_true, if_false, if_true]
  · have h0 : s.users.count cid = 0 := by
      refine List.count_eq_zero.mpr ?_
      simpa using h6
    simp [List.count_append, h0]

/-- Witness for C6 at the empty store with clerk id u3: the first call
creates, the second reports "already exists", and one row exists. -/
theorem C6_webhook_idempotent_witness :
    jget [("type", JValue.str "user.created"), ("data", JValue.obj [("id", JValue.str "u3")])]
        "type" = some (.str "user.created")
    ∧ (emptySt.users.contains "u3" = false)
    ∧ (create_user_from_clerk_webhook
          [("type", .str "user.created"), ("data", .obj [("id", .str "u3")])] false emptySt
        = (.ok (.created "u3"), { emptySt with users := emptySt.users ++ ["u3"] })
      ∧ create_user_from_clerk_webhook
          [("type", .str "user.created"), ("data", .obj [("id", .str "u3")])] false
          { emptySt with users := emptySt.users ++ ["u3"] }
        = (.ok (.alreadyExists "u3"), { emptySt with users := emptySt.users ++ ["u3"] })
      ∧ ({ emptySt with users := emptySt.users ++ ["u3"] }).users.count "u3" = 1) :=
  ⟨rfl, rfl,
    C6_webhook_idempotent emptySt
      [("type", .str "user.created"), ("data", .obj [("id", .str "u3")])]
      [("id", .str "u3")] "u3" rfl rfl rfl rfl rfl rfl⟩

/-- Counterexample to claim C7: a payload with user data but no declared
event type is not rejected with a client error — the handler treats the
absent type as a non-matching type and succeeds with an "ignored" message. -/
theorem C7_counterexample :
    create_user_from_clerk_webhook [("data", .obj [("id", .str "u1")])] false emptySt
      = (.ok (.ignored "Event type 'None' ignored"), emptySt) :=
  rfl

/-- Claim C7 as amended: a payload whose declared event type field is absent
is treated as a non-matching event type: the handler succeeds with the
message "Event type 'None' ignored" and performs no write. -/
theorem C7_amended (s : DBState) (payload : List (String × JValue)) (race : Bool)
    (h : jget payload "type" = none) :
    create_user_from_clerk_webhook payload race s
      = (.ok (.ignored "Event type 'None' ignored"), s) := by
  unfold create_user_from_clerk_webhook
  rw [h]
  rfl

/-- Witness for C7 as amended: a concrete payload carrying no type field. -/
theorem C7_amended_witness :
    jget [("foo", JValue.str "bar")] "type" = none
    ∧ create_user_from_clerk_webhook [("foo", .str "bar")] false stA
      = (.ok (.ignored "Event type 'None' ignored"), stA) :=
  ⟨rfl, C7_amended stA [("foo", .str "bar")] false rfl⟩

/-- Claim C4 documents the intended behavior, and the code contradicts it:
`update_project_settings` and `delete_chat` have only a blanket
`except Exception` clause — unlike every sibling handler they lack
`except HTTPException: raise` — so their deliberately produced 404
NotFoundOrForbidden errors are caught and re-raised as 500-class errors.
This theorem evaluates the code at the failing inputs: updating settings of
another tenant's project, updating settings of an owned project that has no
settings row, and deleting a chat that does not exist all yield status 500,
with the 404 text swallowed into the wrapped detail (and `delete_chat`'s
message even shows the un-interpolated `chat_id` of the source's missing
f-string braces). -/
theorem C4_code_behavior :
    (update_project_settings 1 stgEx "B" stA).1
      = .error ⟨500, "Failed to update project settings: 404: Project not found or access denied"⟩
    ∧ (update_project_settings 2 stgEx "A" stB).1
      = .error ⟨500, "Failed to update project settings: 404: Project settings not found"⟩
    ∧ (delete_chat 7 "A" stA).1
      = .error ⟨500, "Failed to delete chat: chat_id"⟩ :=
  ⟨rfl, rfl, rfl⟩

/-- Claim C8: a successful `create_project` returns the created project and
stores alongside it a settings row holding exactly the documented defaults,
so an immediate `get_project_settings` for the new id returns that object. -/
theorem C8_default_settings (s : DBState) (nm ds cid : String)
    (hfresh : ∀ r ∈ s.project_settings, r.project_id ≠ s.nextId) :
    (create_project nm ds cid .ok .ok s).1
      = .ok ⟨"Project created successfully", ⟨s.nextId, nm, ds, cid⟩⟩
    ∧ get_project_settings s.nextId cid (create_project nm ds cid .ok .ok s).2
      = .ok ⟨s.nextId, "text-embedding-3-large", "basic", "agentic", 10, 5, 0.3, 5,
          true, "rerank-english-v3.0", 0.7, 0.3⟩ := by
  refine ⟨rfl, ?_⟩
  unfold get_project_settings create_project
  have hfil : (s.project_settings ++ [defaultSettings s.nextId]).filter
      (fun r => r.project_id == s.nextId) = [defaultSettings s.nextId] := by
    rw [List.filter_append]
    have h1 : s.project_settings.filter (fun r => r.project_id == s.nextId) = [] := by
      refine List.filter_eq_nil_iff.mpr ?_
      intro r hr
      simp only [beq_iff_eq]
      exact hfresh r hr
    rw [h1]
    simp [defaultSettings]
  simp only []
  rw [hfil]
  rfl

/-- Witness for C8 at the empty store. -/
theorem C8_default_settings_witness :
    (∀ r ∈ emptySt.project_settings, r.project_id ≠ emptySt.nextId)
    ∧ ((create_project "Demo" "" "A" .ok .ok emptySt).1
        = .ok ⟨"Project created successfully", ⟨emptySt.nextId, "Demo", "", "A"⟩⟩
      ∧ get_project_settings emptySt.nextId "A" (create_project "Demo" "" "A" .ok .ok emptySt).2
        = .ok ⟨emptySt.nextId, "text-embedding-3-large", "basic", "agentic", 10, 5, 0.3, 5,
            true, "rerank-english-v3.0", 0.7, 0.3⟩) :=
  ⟨by simp [emptySt], C8_default_settings emptySt "Demo" "" "A" (by simp [emptySt])⟩

/-- Counterexample to claim C9: a `create_project` call with an empty name
does not fail — it succeeds and a project whose name is the empty string is
created. -/
theorem C9_counterexample :
    (create_project "" "" "A" .ok .ok emptySt).1
      = .ok ⟨"Project created successfully", ⟨0, "", "", "A"⟩⟩
    ∧ (create_project "" "" "A" .ok .ok emptySt).2.projects = [⟨0, "", "", "A"⟩] :=
  ⟨rfl, rfl⟩

/-- Claim C9 as amended: `create_project` requires the name field to be
present — a body without `name` is rejected by the pydantic validation with
a 422-class error before the handler runs — but it does not require the
name non-empty: a call with an empty name succeeds and creates the project
with `name = ""`. -/
theorem C9_amended (body : List (String × JValue)) (ds cid : String) (s : DBState)
    (h : jget body "name" = none) :
    parseProjectCreate body = .error ⟨422, "Field required"⟩
    ∧ create_project "" ds cid .ok .ok s
      = (.ok ⟨"Project created successfully", ⟨s.nextId, "", ds, cid⟩⟩,
         { s with projects := s.projects ++ [⟨s.nextId, "", ds, cid⟩],
                  project_settings := s.project_settings ++ [defaultSettings s.nextId],
                  nextId := s.nextId + 1 }) := by
  constructor
  · unfold parseProjectCreate
    rw [h]
  · rfl

/-- Witness for C9 as amended: a body holding only a description. -/
theorem C9_amended_witness :
    jget [("description", JValue.str "d")] "name" = none
    ∧ (parseProjectCreate [("description", .str "d")] = .error ⟨422, "Field required"⟩
      ∧ create_project "" "d" "A" .ok .ok stA
        = (.ok ⟨"Project created successfully", ⟨stA.nextId, "", "d", "A"⟩⟩,
           { stA with projects := stA.projects ++ [⟨stA.nextId, "", "d", "A"⟩],
                      project_settings := stA.project_settings ++ [defaultSettings stA.nextId],
                      nextId := stA.nextId + 1 })) :=
  ⟨rfl, C9_amended [("description", .str "d")] "d" "A" stA rfl⟩

/-- A store where tenant A owns projects 1 and 2, each with its settings row. -/
def stC10 : DBState :=
  ⟨["A"], [⟨1, "p", "", "A"⟩, ⟨2, "q", "", "A"⟩],
   [defaultSettings 1, defaultSettings 2], [], [], 3⟩

/-- Mapping the settings update over the table leaves every row of a
different project untouched: `applySettings` keeps `project_id`, so the
rows outside the `project_id = pid` filter are the same before and after. -/
theorem settings_filter_other_map (l : List SettingsRow) (pid : Nat) (stg : ProjectSettings) :
    (l.map (fun r => if r.project_id == pid then applySettings stg r else r)).filter
        (fun r => !(r.project_id == pid))
      = l.filter (fun r => !(r.project_id == pid)) := by
  induction l with
  | nil => rfl
  | cons r rest ih =>
    rw [List.map_cons, List.filter_cons, List.filter_cons]
    by_cases h : (r.project_id == pid) = true
    · have e1 : (if r.project_id == pid then applySettings stg r else r) = applySettings stg r := by
        rw [h]
        rfl
      have e2 : ((applySettings stg r).project_id == pid) = true := h
      rw [e1, e2, h]
      simpa using ih
    · have hb : (r.project_id == pid) = false := by
        cases hc : (r.project_id == pid) with
        | false => rfl
        | true => exact absurd hc h
      have e1 : (if r.project_id == pid then applySettings stg r else r) = r := by
        rw [hb]
        rfl
      rw [e1, hb]
      simpa using ih

/-- Claim C10: a successful `update_project_settings` for project p touches
only the settings rows whose `project_id` is p — the users, projects, chats
and documents tables are unchanged, and so is every settings row of every
other project. -/
theorem C10_update_frame (s : DBState) (pid : Nat) (stg : ProjectSettings) (cid : String)
    (h : ∃ r, (update_project_settings pid stg cid s).1 = .ok r) :
    (update_project_settings pid stg cid s).2.users = s.users
    ∧ (update_project_settings pid stg cid s).2.projects = s.projects
    ∧ (update_project_settings pid stg cid s).2.chats = s.chats
    ∧ (update_project_settings pid stg cid s).2.project_documents = s.project_documents
    ∧ (update_project_settings pid stg cid s).2.project_settings.filter
          (fun r => !(r.project_id == pid))
      = s.project_settings.filter (fun r => !(r.project_id == pid)) := by
  clear h
  unfold update_project_settings
  rcases hres : s.projects.filter (fun p => p.id == pid && p.clerk_id == cid) with _ | ⟨p, rest⟩
  · rw [hres]
    exact ⟨rfl, rfl, rfl, rfl, rfl⟩
  · rw [hres]
    rcases hupd : (s.project_settings.filter (fun r => r.project_id == pid)).map
        (applySettings stg) with _ | ⟨r, rrest⟩
    · rw [hupd]
      exact ⟨rfl, rfl, rfl, rfl, settings_filter_other_map s.project_settings pid stg⟩
    · rw [hupd]
      exact ⟨rfl, rfl, rfl, rfl, settings_filter_other_map s.project_settings pid stg⟩

/-- Witness for C10 at a concrete store: tenant A owns projects 1 and 2,
the update of project 1 succeeds, and project 2's settings row and all
other tables are unchanged. -/
theorem C10_update_frame_witness :
    (∃ r, (update_project_settings 1 stgEx "A" stC10).1 = .ok r)
    ∧ ((update_project_settings 1 stgEx "A" stC10).2.users = stC10.users
      ∧ (update_project_settings 1 stgEx "A" stC10).2.projects = stC10.projects
      ∧ (update_project_settings 1 stgEx "A" stC10).2.chats = stC10.chats
      ∧ (update_project_settings 1 stgEx "A" stC10).2.project_documents = stC10.project_documents
      ∧ (update_project_settings 1 stgEx "A" stC10).2.project_settings.filter
            (fun r => !(r.project_id == 1))
        = stC10.project_settings.filter (fun r => !(r.project_id == 1))) :=
  ⟨⟨applySettings stgEx (defaultSettings 1), rfl⟩,
    C10_update_frame stC10 1 stgEx "A" ⟨applySettings stgEx (defaultSettings 1), rfl⟩⟩
